import Mathlib

/-!
Verification of the `crudinator` table mapper (src/crudinator.py).

The mapper turns a dataclass (subclass of `CrudinatorRow`, which carries the
`rowid` field) into CRUD operations over a relational table.  We embed the
SQL/parameter generation of every operation faithfully, model the external
storage engine (SQLite, consumed through an executor) from the spec's
executor contract, and prove or refute the frozen claims.
-/

namespace Crud

/-- A Python value as it appears in record fields, bound parameters and result
rows: `None`, an integer, or a string.  The wildcard sentinel of the source is
the string value `"any"`. -/
inductive Value
  | vNull
  | vInt (n : Int)
  | vStr (s : String)
  deriving DecidableEq, Repr

/-- Embedding of a `CrudinatorRow` dataclass instance: the `rowid` field
(declared first, on the base class, default `None`) and the remaining declared
fields in order, each a (name, value) pair. -/
structure CrudinatorRow where
  rowid : Value
  fields : List (String × Value)
  deriving DecidableEq, Repr

/-- The ordered field list produced by `dataclasses.fields`: the base class
field `rowid` first, then the subclass fields in declaration order. -/
def CrudinatorRow.allFields (r : CrudinatorRow) : List (String × Value) :=
  ("rowid", r.rowid) :: r.fields

/-- Python exceptions relevant to the mapper.  `typeError` is raised by
`Crudinator.__init__`; `engineError` stands for any exception raised by the
underlying `cur.execute`/`fetchone`; `attributeError` is what `None.get`
raises.  The remaining four constructors are modelled from the spec: the spec
names error kinds `ConfigurationError`, `SchemaError`, `WriteError` and
`QueryError`; no such classes exist in the source, but we declare them so the
spec's claims about them can be stated and compared with the code. -/
inductive PyError
  | typeError (msg : String)
  | engineError (msg : String)
  | attributeError (msg : String)
  | configurationError (msg : String)
  | schemaError (msg : String)
  | writeError (msg : String)
  | queryError (msg : String)
  deriving DecidableEq, Repr

/-- Outcome of one `cur.execute` call, supplied by the caller's executor:
success, or an exception raised by the engine. -/
inductive ExecOutcome
  | ok
  | err (e : PyError)
  deriving DecidableEq, Repr

/-- Outcome of the `cur.fetchone()` call inside `create`: a result row (a
dict from column name to value), `None`, or an exception. -/
inductive FetchOutcome
  | oneRow (d : List (String × Value))
  | noRow
  | err (e : PyError)
  deriving DecidableEq, Repr

/-- A statement handed to the executor: SQL text plus positional parameters. -/
abbrev Stmt := String × List Value

/-- Python `dict.get(k)`: the first binding of `k`, or `None` when absent. -/
def dict_get (d : List (String × Value)) (k : String) : Value :=
  match d.find? (fun p => p.1 = k) with
  | some p => p.2
  | none => Value.vNull

/-- The mapper object: the name of the bound dataclass type
(`self.dc.__class__.__name__`) and the bound template instance `self.dc`. -/
structure Crudinator where
  dcName : String
  dc : CrudinatorRow
  deriving DecidableEq, Repr

/-- Table name derivation: `self.dc.__class__.__name__.lower()`. -/
def Crudinator.tableName (c : Crudinator) : String :=
  c.dcName.toLower

/-- Embedding of `Crudinator.__init__`: `TypeError` when the argument is not a
dataclass, `TypeError` when its class is not a subclass of `CrudinatorRow`,
otherwise the constructed mapper. -/
def crudinator_init (is_dataclass : Bool) (is_crudinator_row_subclass : Bool)
    (dcName : String) (dc : CrudinatorRow) : Except PyError Crudinator :=
  if ¬ is_dataclass then
    Except.error (PyError.typeError "Did not pass a dataclass to the Crudinator.")
  else if ¬ is_crudinator_row_subclass then
    Except.error (PyError.typeError "Crudinator dataclasses must be a subclass of CrudinatorRow.")
  else
    Except.ok { dcName := dcName, dc := dc }

/-- Column list built by `ensure_table`: every field name of the template
except `rowid`. -/
def ensure_table_columns (dc : CrudinatorRow) : List String :=
  (dc.allFields.filter (fun f => f.1 ≠ "rowid")).map (fun f => f.1)

/-- The SQL text built by `ensure_table` (`pk = []` models Python `pk=None`
or an empty list, both falsy). -/
def ensure_table_sql (c : Crudinator) (pk : List String) : String :=
  let base := "CREATE TABLE IF NOT EXISTS " ++ c.tableName ++ "("
    ++ String.intercalate ", " (ensure_table_columns c.dc)
  if pk ≠ [] then
    base ++ ", PRIMARY KEY (" ++ String.intercalate ", " pk ++ "));"
  else
    base ++ ");"

/-- Embedding of `ensure_table`: executes its one statement; an engine
exception propagates unchanged (the source has no try/except). -/
def ensure_table (c : Crudinator) (pk : List String) (ex : ExecOutcome) :
    List Stmt × Option PyError :=
  ([(ensure_table_sql c pk, [])],
   match ex with
   | ExecOutcome.ok => none
   | ExecOutcome.err e => some e)

/-- The SQL text built by `ensure_index`. -/
def ensure_index_sql (c : Crudinator) (name : String) (columns : List String)
    (unique : Bool) : String :=
  (if unique then "CREATE UNIQUE INDEX" else "CREATE INDEX")
    ++ " IF NOT EXISTS " ++ name ++ " ON " ++ c.tableName
    ++ " (" ++ String.intercalate ", " columns ++ ");"

/-- Embedding of `ensure_index`. -/
def ensure_index (c : Crudinator) (name : String) (columns : List String)
    (unique : Bool) (ex : ExecOutcome) : List Stmt × Option PyError :=
  ([(ensure_index_sql c name columns unique, [])],
   match ex with
   | ExecOutcome.ok => none
   | ExecOutcome.err e => some e)

/-- Column list built by `create`: field names not in `ignore = ['rowid']`. -/
def create_columns (row : CrudinatorRow) : List String :=
  (row.allFields.filter (fun f => ¬ f.1 ∈ ["rowid"])).map (fun f => f.1)

/-- Value list built by `create`: values of the fields not in `ignore`. -/
def create_values (row : CrudinatorRow) : List Value :=
  (row.allFields.filter (fun f => ¬ f.1 ∈ ["rowid"])).map (fun f => f.2)

/-- The INSERT text built by `create`. -/
def create_sql (c : Crudinator) (row : CrudinatorRow) : String :=
  "INSERT INTO " ++ c.tableName ++ " ("
    ++ String.intercalate ", " (create_columns row) ++ ") VALUES ("
    ++ String.intercalate ", " (List.replicate (create_values row).length "?")
    ++ ") RETURNING rowid;"

/-- Embedding of `create`: executes the INSERT, fetches one row, and writes
`rowid_row.get('rowid')` onto the record's `rowid` field.  Returns the
executed statements, the state of the caller's record after the call (the
source mutates it in place), and the exception if one was raised.  When the
INSERT raises, or the fetch raises, or `fetchone` returns `None` (so that
`.get` raises `AttributeError`), the record is returned unmodified. -/
def create (c : Crudinator) (row : CrudinatorRow) (ex : ExecOutcome)
    (fetch : FetchOutcome) : List Stmt × CrudinatorRow × Option PyError :=
  let stmt : Stmt := (create_sql c row, create_values row)
  match ex with
  | ExecOutcome.err e => ([stmt], row, some e)
  | ExecOutcome.ok =>
    match fetch with
    | FetchOutcome.err e => ([stmt], row, some e)
    | FetchOutcome.noRow =>
      ([stmt], row, some (PyError.attributeError "NoneType has no attribute get"))
    | FetchOutcome.oneRow d => ([stmt], { row with rowid := dict_get d "rowid" }, none)

/-- The `attention` list of `read_generator`: names of prototype fields that
are neither in `ignore_keys = ['rowid']` nor hold a value in
`ignore_values = ['any']`, in declaration order. -/
def read_attention (p : CrudinatorRow) : List String :=
  (p.allFields.filter
    (fun f => ¬ f.1 ∈ ["rowid"] ∧ ¬ f.2 ∈ [Value.vStr "any"])).map (fun f => f.1)

/-- The positional parameters gathered by `read_generator`, built in the same
loop as `attention`. -/
def read_args (p : CrudinatorRow) : List Value :=
  (p.allFields.filter
    (fun f => ¬ f.1 ∈ ["rowid"] ∧ ¬ f.2 ∈ [Value.vStr "any"])).map (fun f => f.2)

/-- The `prototype_parts` list: `' WHERE f=?'` for the first attention column,
`' AND f=?'` for each later one. -/
def prototype_parts (attention : List String) : List String :=
  match attention with
  | [] => []
  | f :: rest =>
    (" WHERE " ++ f ++ "=?") :: rest.map (fun g => " AND " ++ g ++ "=?")

/-- The complete SELECT text and parameter list built by `read_generator`.
`prototype = none` models Python `prototype=None` (falsy); `limit` is truthy
exactly when nonzero; `order_by = none` or `some ""` are both falsy. -/
def read_query (c : Crudinator) (prototype : Option CrudinatorRow)
    (limit : Int) (offset : Int) (order_by : Option String)
    (direction : String) : String × List Value :=
  let sql0 := "SELECT rowid, * FROM " ++ c.tableName
  let sqlArgs :=
    match prototype with
    | some p => (sql0 ++ String.join (prototype_parts (read_attention p)), read_args p)
    | none => (sql0, ([] : List Value))
  let sql1 :=
    if limit ≠ 0 then
      sqlArgs.1 ++ " LIMIT " ++ toString limit ++ " OFFSET " ++ toString offset
    else sqlArgs.1
  let sql2 :=
    match order_by with
    | some ob => if ob ≠ "" then sql1 ++ " ORDER BY " ++ ob ++ " " ++ direction else sql1
    | none => sql1
  (sql2 ++ ";", sqlArgs.2)

/-- Embedding of the statement execution performed by `read_generator`:
the one SELECT is executed; an engine exception propagates unchanged. -/
def read_exec (c : Crudinator) (prototype : Option CrudinatorRow)
    (limit : Int) (offset : Int) (order_by : Option String) (direction : String)
    (ex : ExecOutcome) : List Stmt × Option PyError :=
  ([read_query c prototype limit offset order_by direction],
   match ex with
   | ExecOutcome.ok => none
   | ExecOutcome.err e => some e)

/-- The SET-clause column names built by `update` (fields not in
`ignores = ['rowid']`). -/
def update_set_names (row : CrudinatorRow) : List String :=
  (row.allFields.filter (fun f => ¬ f.1 ∈ ["rowid"])).map (fun f => f.1)

/-- The SET-clause expressions `col=?` built by `update`. -/
def update_expressions (row : CrudinatorRow) : List String :=
  (row.allFields.filter (fun f => ¬ f.1 ∈ ["rowid"])).map (fun f => f.1 ++ "=?")

/-- The UPDATE text and parameter list built by `update` once the identifier
is known to be set: all non-`rowid` field values in declared order, then the
identifier for the `WHERE rowid = ?` clause. -/
def update_sql_args (c : Crudinator) (row : CrudinatorRow) : String × List Value :=
  ("UPDATE " ++ c.tableName ++ " SET "
     ++ String.intercalate "," (update_expressions row) ++ " WHERE rowid = ?;",
   ((row.allFields.filter (fun f => ¬ f.1 ∈ ["rowid"])).map (fun f => f.2))
     ++ [row.rowid])

/-- Embedding of `update`: a silent no-op (no statement, no exception) when
`row.rowid is None`; otherwise executes the one UPDATE, with an engine
exception propagating unchanged. -/
def update (c : Crudinator) (row : CrudinatorRow) (ex : ExecOutcome) :
    List Stmt × Option PyError :=
  if row.rowid = Value.vNull then ([], none)
  else
    ([update_sql_args c row],
     match ex with
     | ExecOutcome.ok => none
     | ExecOutcome.err e => some e)

/-- The DELETE text built by `delete`. -/
def delete_sql (c : Crudinator) : String :=
  "DELETE FROM " ++ c.tableName ++ " WHERE rowid = ?;"

/-- Embedding of `delete`: silent no-op when `row.rowid is None`; otherwise
one DELETE with the identifier as sole parameter. -/
def delete (c : Crudinator) (row : CrudinatorRow) (ex : ExecOutcome) :
    List Stmt × Option PyError :=
  if row.rowid = Value.vNull then ([], none)
  else
    ([(delete_sql c, [row.rowid])],
     match ex with
     | ExecOutcome.ok => none
     | ExecOutcome.err e => some e)

/-- Modelled from the spec: the external storage engine (SQLite behind the
executor contract, not part of the repository).  A table is a list of stored
rows, each a surrogate `rowid` plus column values. -/
structure Table where
  rows : List (Int × List (String × Value))
  deriving DecidableEq, Repr

/-- Modelled from the spec: the engine assigns the next surrogate key on
insertion (one greater than the largest rowid in use). -/
def next_rowid (t : Table) : Int :=
  (t.rows.map (fun r => r.1)).foldr max 0 + 1

/-- Modelled from the spec: executing the generated INSERT appends a row with
the bound column values and returns the assigned rowid. -/
def table_insert (t : Table) (cols : List String) (vals : List Value) :
    Table × Int :=
  let rid := next_rowid t
  ({ rows := t.rows ++ [(rid, List.zip cols vals)] }, rid)

/-- Modelled from the spec: SQL equality under the engine's three-valued
logic — a comparison involving NULL is never true. -/
def sql_eq (a b : Value) : Bool :=
  match a, b with
  | Value.vNull, _ => false
  | _, Value.vNull => false
  | a, b => a = b

/-- Modelled from the spec: a stored row satisfies the generated WHERE clause
when every attention column compares SQL-equal to its bound parameter. -/
def row_matches (attention : List String) (args : List Value)
    (cols : List (String × Value)) : Bool :=
  (List.zip attention args).all (fun p => sql_eq (dict_get cols p.1) p.2)

/-- Modelled from the spec: executing the generated SELECT yields the stored
rows satisfying the WHERE clause, in table order. -/
def table_select (t : Table) (attention : List String) (args : List Value) :
    List (Int × List (String × Value)) :=
  t.rows.filter (fun r => row_matches attention args r.2)

/-- Modelled from the spec: executing the generated UPDATE sets, in every row
whose rowid equals the bound identifier, each column named in the SET clause
to its bound value; other rows and other columns are untouched. -/
def table_update (t : Table) (rid : Int) (sets : List (String × Value)) : Table :=
  { rows := t.rows.map (fun r =>
      if r.1 = rid then
        (r.1, r.2.map (fun col =>
          match sets.find? (fun s => s.1 = col.1) with
          | some s => (col.1, s.2)
          | none => col))
      else r) }

/-- Modelled from the spec: executing the generated DELETE removes exactly
the rows whose rowid equals the bound identifier. -/
def table_delete (t : Table) (rid : Int) : Table :=
  { rows := t.rows.filter (fun r => r.1 ≠ rid) }

/-- Modelled from the spec: `BaseModel.parse_from_dict` (from
`libs.data_models`, not under src/) populates a fresh instance's fields from
a column-name-to-value mapping; `read_generator` feeds it each result row of
`SELECT rowid, *`, so the mapping binds `rowid` and every column. -/
def parse_from_dict (template : CrudinatorRow) (d : List (String × Value)) :
    CrudinatorRow :=
  { rowid := dict_get d "rowid",
    fields := template.fields.map (fun f => (f.1, dict_get d f.1)) }

/-- The row dict the executor hands back for a stored row of
`SELECT rowid, *`: the rowid, then the columns. -/
def select_row_dict (r : Int × List (String × Value)) : List (String × Value) :=
  ("rowid", Value.vInt r.1) :: r.2

/-- End-to-end read against the engine model, at the source's default
arguments (`limit=0`, no ordering): run the generated query and hydrate each
result row into a fresh record of the bound type. -/
def read_run (c : Crudinator) (t : Table) (prototype : Option CrudinatorRow) :
    List CrudinatorRow :=
  let attention :=
    match prototype with
    | some p => read_attention p
    | none => []
  let args :=
    match prototype with
    | some p => read_args p
    | none => []
  (table_select t attention args).map (fun r => parse_from_dict c.dc (select_row_dict r))

/-- End-to-end create against the engine model: insert the record's
non-identifier columns, and write the assigned rowid back onto the record
(the engine returns it through `RETURNING rowid`). -/
def create_run (t : Table) (row : CrudinatorRow) : Table × CrudinatorRow :=
  let ins := table_insert t (create_columns row) (create_values row)
  (ins.1, { row with rowid := Value.vInt ins.2 })

/-- End-to-end update against the engine model: the no-op guard, then the
generated UPDATE applied by the engine.  A non-integer rowid matches no
stored row (rowids are engine-assigned integers). -/
def update_run (t : Table) (row : CrudinatorRow) : Table :=
  if row.rowid = Value.vNull then t
  else
    match row.rowid with
    | Value.vInt rid =>
      table_update t rid (List.zip (update_set_names row)
        ((row.allFields.filter (fun f => ¬ f.1 ∈ ["rowid"])).map (fun f => f.2)))
    | _ => t

/-- End-to-end delete against the engine model. -/
def delete_run (t : Table) (row : CrudinatorRow) : Table :=
  if row.rowid = Value.vNull then t
  else
    match row.rowid with
    | Value.vInt rid => table_delete t rid
    | _ => t

/-- Whether a construction outcome is the spec's `ConfigurationError`. -/
def is_configuration_error : Except PyError Crudinator → Bool
  | Except.error (PyError.configurationError _) => true
  | _ => false

/-- Whether a raised operation error is one of the spec's designated wrapper
kinds (`SchemaError`, `WriteError`, `QueryError`). -/
def is_designated_wrap : Option PyError → Bool
  | some (PyError.schemaError _) => true
  | some (PyError.writeError _) => true
  | some (PyError.queryError _) => true
  | _ => false

/-- A prototype with the field named `n` removed: the literal meaning of
leaving that field unconstrained. -/
def drop_field (p : CrudinatorRow) (n : String) : CrudinatorRow :=
  { p with fields := p.fields.filter (fun f => f.1 ≠ n) }

/-- A stored row's columns with the column named `n` overwritten by `v`. -/
def set_col (cols : List (String × Value)) (n : String) (v : Value) :
    List (String × Value) :=
  cols.map (fun col => if col.1 = n then (col.1, v) else col)

/-- The spec's scenario: a `widget(name, color)` record type.  The template
instance has both fields at their `None` defaults. -/
def widget_template : CrudinatorRow :=
  { rowid := Value.vNull, fields := [("name", Value.vNull), ("color", Value.vNull)] }

/-- The mapper bound to the widget type. -/
def widget_crud : Crudinator :=
  { dcName := "Widget", dc := widget_template }

/-- A fresh (never persisted) red bolt record. -/
def bolt_red : CrudinatorRow :=
  { rowid := Value.vNull,
    fields := [("name", Value.vStr "bolt"), ("color", Value.vStr "red")] }

/-- A fresh green nut record. -/
def nut_green : CrudinatorRow :=
  { rowid := Value.vNull,
    fields := [("name", Value.vStr "nut"), ("color", Value.vStr "green")] }

/-- The empty widget table. -/
def empty_table : Table := { rows := [] }

/-- The table after creating `bolt_red` (assigned rowid 1) and then
`nut_green` (assigned rowid 2). -/
def widget_table2 : Table :=
  (create_run (create_run empty_table bolt_red).1 nut_green).1

/-- The caller's bolt record after its create: rowid 1 written back. -/
def bolt_created : CrudinatorRow :=
  (create_run empty_table bolt_red).2

/-- A read-by-identifier prototype: rowid set to bolt's assigned identifier,
every other field wildcarded with the sentinel. -/
def byid_prototype : CrudinatorRow :=
  { rowid := Value.vInt 1,
    fields := [("name", Value.vStr "any"), ("color", Value.vStr "any")] }

/-- The scenario's updated bolt: same identifier, color changed to blue. -/
def bolt_blue : CrudinatorRow :=
  { rowid := Value.vInt 1,
    fields := [("name", Value.vStr "bolt"), ("color", Value.vStr "blue")] }

/-! Helper lemmas shared by the claim theorems. -/

theorem zip_fst_snd {α β : Type} (l : List (α × β)) :
    List.zip (l.map (fun x => x.1)) (l.map (fun x => x.2)) = l := by
  rw [List.zip_map']
  simp

theorem dict_get_cons_self (n : String) (v : Value) (l : List (String × Value)) :
    dict_get ((n, v) :: l) n = v := by
  simp [dict_get]

theorem dict_get_cons_ne (n k : String) (v : Value) (l : List (String × Value))
    (h : n ≠ k) : dict_get ((n, v) :: l) k = dict_get l k := by
  simp [dict_get, List.find?_cons, h]

theorem sql_eq_self (v : Value) (h : v ≠ Value.vNull) : sql_eq v v = true := by
  cases v with
  | vNull => exact absurd rfl h
  | vInt n => simp [sql_eq]
  | vStr s => simp [sql_eq]

/-- C3 is false on the code: constructing with a non-dataclass raises
`TypeError`, not the spec's `ConfigurationError` (no such class exists). -/
theorem C3_counterexample :
    crudinator_init false true "Widget" widget_template
      = Except.error (PyError.typeError "Did not pass a dataclass to the Crudinator.")
    ∧ is_configuration_error
        (crudinator_init false true "Widget" widget_template) = false := by
  constructor <;> rfl

/-- C3 (amended): constructing the mapper with a bound object that is not a
dataclass, or not an instance of a `CrudinatorRow` subclass, raises a
`TypeError` at construction time; a valid record-model instance constructs
without error. -/
theorem C3_init_validation (d s : Bool) (name : String) (dc : CrudinatorRow) :
    (d = true → s = true →
      crudinator_init d s name dc = Except.ok { dcName := name, dc := dc })
    ∧ (d = false →
      crudinator_init d s name dc
        = Except.error (PyError.typeError "Did not pass a dataclass to the Crudinator."))
    ∧ (d = true → s = false →
      crudinator_init d s name dc
        = Except.error
            (PyError.typeError "Crudinator dataclasses must be a subclass of CrudinatorRow.")) := by
  cases d <;> cases s <;> simp [crudinator_init]

/-- Witness for C3_init_validation at a valid construction. -/
theorem C3_init_validation_witness :
    crudinator_init true true "Widget" widget_template
      = Except.ok { dcName := "Widget", dc := widget_template } :=
  (C3_init_validation true true "Widget" widget_template).1 rfl rfl

/-- C4: update and delete on a record with an unset identifier raise nothing,
execute no statement, and leave both the record (not returned changed —
the embedding returns the unchanged table) and the table untouched. -/
theorem C4_noop_guard (c : Crudinator) (row : CrudinatorRow)
    (ex1 ex2 : ExecOutcome) (t u : Table) (h : row.rowid = Value.vNull) :
    update c row ex1 = ([], none)
    ∧ delete c row ex2 = ([], none)
    ∧ update_run t row = t
    ∧ delete_run u row = u := by
  refine ⟨?_, ?_, ?_, ?_⟩ <;> simp [update, delete, update_run, delete_run, h]

/-- Witness for C4_noop_guard on a never-persisted record. -/
theorem C4_noop_guard_witness :
    update widget_crud bolt_red ExecOutcome.ok = ([], none)
    ∧ delete widget_crud bolt_red ExecOutcome.ok = ([], none)
    ∧ update_run widget_table2 bolt_red = widget_table2
    ∧ delete_run widget_table2 bolt_red = widget_table2 :=
  C4_noop_guard widget_crud bolt_red ExecOutcome.ok ExecOutcome.ok
    widget_table2 widget_table2 rfl

theorem select_literal_split :
    ("SELECT rowid, * FROM " : String) = "SELECT rowid, *" ++ " FROM " := rfl

/-- The SELECT text decomposed into its four appended segments.  Segments for
absent clauses are the empty string. -/
theorem read_query_sql_shape (c : Crudinator) (p : Option CrudinatorRow)
    (lim off : Int) (ob : Option String) (dir : String) :
    (read_query c p lim off ob dir).1
      = "SELECT rowid, * FROM " ++ c.tableName
        ++ (match p with
            | some q => String.join (prototype_parts (read_attention q))
            | none => "")
        ++ (if lim ≠ 0 then " LIMIT " ++ toString lim ++ " OFFSET " ++ toString off
            else "")
        ++ (match ob with
            | some s => if s ≠ "" then " ORDER BY " ++ s ++ " " ++ dir else ""
            | none => "")
        ++ ";" := by
  unfold read_query
  rcases p with _ | q <;> rcases ob with _ | s
  · by_cases hl : lim = 0 <;> simp [hl, String.append_assoc]
  · by_cases hl : lim = 0 <;> by_cases hs : s = "" <;>
      simp [hl, hs, String.append_assoc]
  · by_cases hl : lim = 0 <;> simp [hl, String.append_assoc]
  · by_cases hl : lim = 0 <;> by_cases hs : s = "" <;>
      simp [hl, hs, String.append_assoc]

/-- The parameter list of the generated SELECT depends only on the
prototype. -/
theorem read_query_args_shape (c : Crudinator) (p : Option CrudinatorRow)
    (lim off : Int) (ob : Option String) (dir : String) :
    (read_query c p lim off ob dir).2
      = match p with
        | some q => read_args q
        | none => [] := by
  unfold read_query
  rcases p with _ | q <;> rfl

/-- Dropping the base-class `rowid` entry: the combined ignore filter of
`read_generator` over all fields equals the sentinel filter over the
subclass fields, provided no subclass field is itself named `rowid`. -/
theorem read_filter_eq (p : CrudinatorRow)
    (hrowid : ¬ "rowid" ∈ p.fields.map Prod.fst) :
    p.allFields.filter
        (fun f => ¬ f.1 ∈ (["rowid"] : List String) ∧ ¬ f.2 ∈ [Value.vStr "any"])
      = p.fields.filter (fun f => f.2 ≠ Value.vStr "any") := by
  show ((("rowid", p.rowid) :: p.fields).filter _) = _
  rw [List.filter_cons]
  simp only [List.mem_singleton, decide_not]
  norm_num
  apply List.filter_congr
  intro f hf
  have hne : f.1 ≠ "rowid" := by
    intro he
    exact hrowid (List.mem_map.mpr ⟨f, hf, he⟩)
  simp [hne]

/-- The attention columns are exactly the non-sentinel subclass fields'
names, in declared order. -/
theorem read_attention_eq (p : CrudinatorRow)
    (hrowid : ¬ "rowid" ∈ p.fields.map Prod.fst) :
    read_attention p
      = (p.fields.filter (fun f => f.2 ≠ Value.vStr "any")).map (fun f => f.1) := by
  unfold read_attention
  rw [read_filter_eq p hrowid]

/-- The bound parameters are exactly the non-sentinel subclass fields'
values, in declared order. -/
theorem read_args_eq (p : CrudinatorRow)
    (hrowid : ¬ "rowid" ∈ p.fields.map Prod.fst) :
    read_args p
      = (p.fields.filter (fun f => f.2 ≠ Value.vStr "any")).map (fun f => f.2) := by
  unfold read_args
  rw [read_filter_eq p hrowid]

/-- Dropping the base-class `rowid` entry from the `ignore` filter used by
`create` and `update`: it keeps exactly the subclass fields, provided no
subclass field is itself named `rowid`. -/
theorem ignore_filter_eq (row : CrudinatorRow)
    (hrowid : ¬ "rowid" ∈ row.fields.map Prod.fst) :
    row.allFields.filter (fun f => ¬ f.1 ∈ (["rowid"] : List String))
      = row.fields := by
  show ((("rowid", row.rowid) :: row.fields).filter _) = _
  rw [List.filter_cons]
  simp only [List.mem_singleton, decide_not]
  norm_num
  intro a b hab he
  exact hrowid (List.mem_map.mpr ⟨(a, b), hab, he⟩)

/-- C2 is false on the code: when the engine rejects the INSERT, `create`
re-raises the engine's own exception unchanged — it is not wrapped in
`WriteError` (nor any designated kind; no such classes exist in the code). -/
theorem C2_counterexample :
    (create widget_crud bolt_red
        (ExecOutcome.err (PyError.engineError "UNIQUE constraint failed"))
        FetchOutcome.noRow).2.2
      = some (PyError.engineError "UNIQUE constraint failed")
    ∧ is_designated_wrap
        (create widget_crud bolt_red
          (ExecOutcome.err (PyError.engineError "UNIQUE constraint failed"))
          FetchOutcome.noRow).2.2
      = false := by
  constructor <;> rfl

/-- C2 (amended): the mapper performs no retry — every operation submits at
most one statement to the executor — and when the engine rejects a statement
the failure propagates to the caller unchanged: it is not wrapped in
`SchemaError`/`WriteError`/`QueryError` (the code defines no such wrappers
and has no try/except). -/
theorem C2_no_wrap_no_retry (c : Crudinator) (row : CrudinatorRow)
    (pk : List String) (idx : String) (cols : List String) (uq : Bool)
    (p : Option CrudinatorRow) (lim off : Int) (ob : Option String)
    (dir : String) (fetch : FetchOutcome) (e : PyError) :
    ((ensure_table c pk (ExecOutcome.err e)).2 = some e
      ∧ (ensure_table c pk (ExecOutcome.err e)).1.length = 1)
    ∧ ((ensure_index c idx cols uq (ExecOutcome.err e)).2 = some e
      ∧ (ensure_index c idx cols uq (ExecOutcome.err e)).1.length = 1)
    ∧ ((create c row (ExecOutcome.err e) fetch).2.2 = some e
      ∧ (create c row (ExecOutcome.err e) fetch).1.length = 1)
    ∧ ((read_exec c p lim off ob dir (ExecOutcome.err e)).2 = some e
      ∧ (read_exec c p lim off ob dir (ExecOutcome.err e)).1.length = 1)
    ∧ (row.rowid ≠ Value.vNull → (update c row (ExecOutcome.err e)).2 = some e)
    ∧ (row.rowid ≠ Value.vNull → (delete c row (ExecOutcome.err e)).2 = some e)
    ∧ (update c row (ExecOutcome.err e)).1.length ≤ 1
    ∧ (delete c row (ExecOutcome.err e)).1.length ≤ 1 := by
  refine ⟨⟨rfl, rfl⟩, ⟨rfl, rfl⟩, ⟨rfl, rfl⟩, ⟨rfl, rfl⟩, ?_, ?_, ?_, ?_⟩
  · intro h; simp [update, h]
  · intro h; simp [delete, h]
  · by_cases h : row.rowid = Value.vNull <;> simp [update, h]
  · by_cases h : row.rowid = Value.vNull <;> simp [delete, h]

/-- Witness for C2_no_wrap_no_retry: an update on a persisted record whose
engine rejects the statement surfaces the engine's own error. -/
theorem C2_no_wrap_no_retry_witness :
    (update widget_crud bolt_created
        (ExecOutcome.err (PyError.engineError "database is locked"))).2
      = some (PyError.engineError "database is locked") :=
  (C2_no_wrap_no_retry widget_crud bolt_created [] "i" [] false none 0 0 none
      "ASC" FetchOutcome.noRow
      (PyError.engineError "database is locked")).2.2.2.2.1 (by decide)

/-- C6: on success, `create` writes the identifier fetched from the engine's
`RETURNING rowid` row onto the record's `rowid` field and changes no other
field; on any failure (rejected INSERT, failed fetch, or an empty fetch
result) the caller's record is left unmodified.  Against the engine model
the value written is exactly the engine-assigned rowid. -/
theorem C6_create_frame (c : Crudinator) (row : CrudinatorRow)
    (d : List (String × Value)) (e : PyError) (fetch : FetchOutcome) (t : Table) :
    ((create c row ExecOutcome.ok (FetchOutcome.oneRow d)).2.1.rowid = dict_get d "rowid"
      ∧ (create c row ExecOutcome.ok (FetchOutcome.oneRow d)).2.1.fields = row.fields)
    ∧ (create c row (ExecOutcome.err e) fetch).2.1 = row
    ∧ (create c row ExecOutcome.ok (FetchOutcome.err e)).2.1 = row
    ∧ (create c row ExecOutcome.ok FetchOutcome.noRow).2.1 = row
    ∧ ((create_run t row).2.rowid = Value.vInt (next_rowid t)
      ∧ (create_run t row).2.fields = row.fields) :=
  ⟨⟨rfl, rfl⟩, rfl, rfl, rfl, ⟨rfl, rfl⟩⟩

/-- C8: the SELECT text appends `LIMIT <n> OFFSET <m>` exactly when the limit
is nonzero (a zero limit yields neither clause, and the offset argument then
has no effect on the text), and thereafter appends `ORDER BY <col> <dir>`
exactly when a nonempty order-by column is given; neither clause affects the
parameter list.  The source's `direction` parameter defaults to `'ASC'`, so
the default order clause reads `ORDER BY <col> ASC`. -/
theorem C8_clause_assembly (c : Crudinator) (p : Option CrudinatorRow)
    (lim off off2 : Int) (ob : Option String) (dir colName : String) :
    (read_query c p lim off ob dir).1
      = "SELECT rowid, * FROM " ++ c.tableName
        ++ (match p with
            | some q => String.join (prototype_parts (read_attention q))
            | none => "")
        ++ (if lim ≠ 0 then " LIMIT " ++ toString lim ++ " OFFSET " ++ toString off
            else "")
        ++ (match ob with
            | some s => if s ≠ "" then " ORDER BY " ++ s ++ " " ++ dir else ""
            | none => "")
        ++ ";"
    ∧ (read_query c p 0 off ob dir).1 = (read_query c p 0 off2 ob dir).1
    ∧ (read_query c p lim off ob dir).2 = (read_query c p 0 0 none "ASC").2
    ∧ (colName ≠ "" →
        (read_query c p 0 0 (some colName) "ASC").1
          = "SELECT rowid, * FROM " ++ c.tableName
            ++ (match p with
                | some q => String.join (prototype_parts (read_attention q))
                | none => "")
            ++ " ORDER BY " ++ colName ++ " ASC;") := by
  refine ⟨read_query_sql_shape c p lim off ob dir, ?_, ?_, ?_⟩
  · rw [read_query_sql_shape, read_query_sql_shape]
    simp
  · rw [read_query_args_shape, read_query_args_shape]
  · intro hcol
    rw [read_query_sql_shape]
    simp [hcol, String.append_assoc]

/-- Witness for C8_clause_assembly at a concrete query. -/
theorem C8_clause_assembly_witness :
    (read_query widget_crud (some byid_prototype) 0 0 (some "name") "ASC").1
      = "SELECT rowid, * FROM " ++ widget_crud.tableName
        ++ (match (some byid_prototype : Option CrudinatorRow) with
            | some q => String.join (prototype_parts (read_attention q))
            | none => "")
        ++ " ORDER BY " ++ "name" ++ " ASC;" :=
  (C8_clause_assembly widget_crud (some byid_prototype) 0 0 0 (some "name")
    "ASC" "name").2.2.2 (by decide)

/-- A read whose prototype holds the sentinel in every subclass field issues
no predicate at all, so the engine returns every stored row. -/
theorem read_run_sentinel_all (c : Crudinator) (t : Table) (p : CrudinatorRow)
    (hrowid : ¬ "rowid" ∈ p.fields.map Prod.fst)
    (hall : ∀ f ∈ p.fields, f.2 = Value.vStr "any") :
    read_run c t (some p)
      = t.rows.map (fun r => parse_from_dict c.dc (select_row_dict r)) := by
  have hfilter : p.fields.filter (fun f => f.2 ≠ Value.vStr "any") = [] :=
    List.filter_eq_nil_iff.mpr (fun f hf => by simp [hall f hf])
  have hatt2 : read_attention p = [] := by
    rw [read_attention_eq p hrowid, hfilter]; rfl
  have hargs2 : read_args p = [] := by
    rw [read_args_eq p hrowid, hfilter]; rfl
  show (table_select t (read_attention p) (read_args p)).map
      (fun r => parse_from_dict c.dc (select_row_dict r)) = _
  rw [hatt2, hargs2]
  unfold table_select
  have hmat : (fun (r : Int × List (String × Value)) => row_matches [] [] r.2)
      = fun _ => true := by
    funext r
    rfl
  rw [hmat]
  simp

/-- C5: the generated SELECT carries one equality predicate and one
positionally bound parameter for exactly the non-identifier prototype fields
whose value is not the wildcard sentinel `'any'`, in declared field order;
a prototype with every field wildcarded yields a SELECT with no WHERE
clause, an empty parameter list, and (against the engine model) every
stored row. -/
theorem C5_query_predicates (c : Crudinator) (p : CrudinatorRow)
    (lim off : Int) (ob : Option String) (dir : String) (t : Table)
    (hrowid : ¬ "rowid" ∈ p.fields.map Prod.fst) :
    read_attention p
      = (p.fields.filter (fun f => f.2 ≠ Value.vStr "any")).map (fun f => f.1)
    ∧ read_args p
      = (p.fields.filter (fun f => f.2 ≠ Value.vStr "any")).map (fun f => f.2)
    ∧ (read_query c (some p) lim off ob dir).2 = read_args p
    ∧ ((∀ f ∈ p.fields, f.2 = Value.vStr "any") →
        (read_query c (some p) 0 0 none dir).1
            = "SELECT rowid, * FROM " ++ c.tableName ++ ";"
        ∧ (read_query c (some p) lim off ob dir).2 = []
        ∧ read_run c t (some p)
            = t.rows.map (fun r => parse_from_dict c.dc (select_row_dict r))) := by
  have hatt := read_attention_eq p hrowid
  have hargs := read_args_eq p hrowid
  refine ⟨hatt, hargs, by rw [read_query_args_shape], ?_⟩
  intro hall
  have hfilter : p.fields.filter (fun f => f.2 ≠ Value.vStr "any") = [] :=
    List.filter_eq_nil_iff.mpr (fun f hf => by simp [hall f hf])
  have hatt2 : read_attention p = [] := by rw [hatt, hfilter]; rfl
  have hargs2 : read_args p = [] := by rw [hargs, hfilter]; rfl
  refine ⟨?_, ?_, ?_⟩
  · rw [read_query_sql_shape]
    simp [hatt2, prototype_parts, String.join]
  · rw [read_query_args_shape]
    exact hargs2
  · exact read_run_sentinel_all c t p hrowid hall

/-- Witness for C5_query_predicates on the all-wildcard prototype. -/
theorem C5_query_predicates_witness :
    read_attention byid_prototype
      = (byid_prototype.fields.filter (fun f => f.2 ≠ Value.vStr "any")).map
          (fun f => f.1) :=
  (C5_query_predicates widget_crud byid_prototype 0 0 none "ASC" widget_table2
    (by decide)).1

/-- C9: the `rowid` field is excluded from the column lists of table
creation, insertion and the update SET clause; it addresses update targets
(the UPDATE text ends in `WHERE rowid = ?` with the identifier bound last)
and delete targets (sole parameter of the DELETE); and every read selects
`rowid` and returns it on each hydrated record. -/
theorem C9_rowid_invariant (c : Crudinator) (dc row : CrudinatorRow)
    (ex : ExecOutcome) (p : Option CrudinatorRow) (lim off : Int)
    (ob : Option String) (dir : String) (t : Table)
    (h : row.rowid ≠ Value.vNull) :
    ¬ "rowid" ∈ ensure_table_columns dc
    ∧ ¬ "rowid" ∈ create_columns row
    ∧ ¬ "rowid" ∈ update_set_names row
    ∧ (∃ pre, (update_sql_args c row).1 = pre ++ " WHERE rowid = ?;")
    ∧ (update_sql_args c row).2.getLast? = some row.rowid
    ∧ delete c row ex
        = ([("DELETE FROM " ++ c.tableName ++ " WHERE rowid = ?;", [row.rowid])],
           match ex with
           | ExecOutcome.ok => none
           | ExecOutcome.err e => some e)
    ∧ (∃ rest, (read_query c p lim off ob dir).1 = "SELECT rowid, *" ++ rest)
    ∧ (∀ q ∈ read_run c t p, ∃ r ∈ t.rows, q.rowid = Value.vInt r.1) := by
  refine ⟨?_, ?_, ?_, ⟨_, rfl⟩, ?_, ?_, ?_, ?_⟩
  · intro hmem
    simp only [ensure_table_columns, List.mem_map, List.mem_filter] at hmem
    obtain ⟨f, ⟨_, hne⟩, hfst⟩ := hmem
    rw [hfst] at hne
    simp at hne
  · intro hmem
    simp only [create_columns, List.mem_map, List.mem_filter] at hmem
    obtain ⟨f, ⟨_, hne⟩, hfst⟩ := hmem
    rw [hfst] at hne
    simp at hne
  · intro hmem
    simp only [update_set_names, List.mem_map, List.mem_filter] at hmem
    obtain ⟨f, ⟨_, hne⟩, hfst⟩ := hmem
    rw [hfst] at hne
    simp at hne
  · simp [update_sql_args, List.getLast?_concat]
  · simp [delete, delete_sql, h]
  · refine ⟨" FROM " ++ c.tableName
        ++ (match p with
            | some q => String.join (prototype_parts (read_attention q))
            | none => "")
        ++ (if lim ≠ 0 then " LIMIT " ++ toString lim ++ " OFFSET " ++ toString off
            else "")
        ++ (match ob with
            | some s => if s ≠ "" then " ORDER BY " ++ s ++ " " ++ dir else ""
            | none => "")
        ++ ";", ?_⟩
    rw [read_query_sql_shape, select_literal_split]
    simp only [String.append_assoc]
  · intro q hq
    simp only [read_run, table_select, List.mem_map] at hq
    obtain ⟨r, hr, rfl⟩ := hq
    refine ⟨r, List.mem_of_mem_filter hr, ?_⟩
    simp [parse_from_dict, select_row_dict, dict_get]

/-- Witness for C9_rowid_invariant on a persisted record. -/
theorem C9_rowid_invariant_witness :
    ¬ "rowid" ∈ create_columns bolt_created
    ∧ (update_sql_args widget_crud bolt_created).2.getLast?
        = some bolt_created.rowid :=
  ⟨(C9_rowid_invariant widget_crud widget_template bolt_created ExecOutcome.ok
      (some byid_prototype) 0 0 none "ASC" widget_table2 (by decide)).2.1,
   (C9_rowid_invariant widget_crud widget_template bolt_created ExecOutcome.ok
      (some byid_prototype) 0 0 none "ASC" widget_table2 (by decide)).2.2.2.2.1⟩

/-- Overwriting, in a column list, each column named in `sets` with its value
from `sets` reproduces `sets` itself when the two name lists agree and are
duplicate-free. -/
theorem replace_cols_eq (cols sets : List (String × Value))
    (hn : cols.map Prod.fst = sets.map Prod.fst)
    (hnd : (sets.map Prod.fst).Nodup) :
    cols.map (fun col =>
      match sets.find? (fun s => s.1 = col.1) with
      | some s => (col.1, s.2)
      | none => col) = sets := by
  induction sets generalizing cols with
  | nil =>
    cases cols with
    | nil => rfl
    | cons c ctl => simp at hn
  | cons s tl ih =>
    cases cols with
    | nil => simp at hn
    | cons c ctl =>
      simp only [List.map_cons, List.cons.injEq] at hn
      obtain ⟨h1, h2⟩ := hn
      simp only [List.map_cons, List.nodup_cons] at hnd
      obtain ⟨hnotin, hnd2⟩ := hnd
      rw [List.map_cons]
      have hhead : (match (s :: tl).find? (fun x => x.1 = c.1) with
          | some x => (c.1, x.2)
          | none => c) = s := by
        rw [List.find?_cons_of_pos _ (by simp [h1])]
        simp only [h1]
      have htail : ctl.map (fun col =>
            match (s :: tl).find? (fun x => x.1 = col.1) with
            | some x => (col.1, x.2)
            | none => col)
          = ctl.map (fun col =>
            match tl.find? (fun x => x.1 = col.1) with
            | some x => (col.1, x.2)
            | none => col) := by
        apply List.map_congr_left
        intro col hcol
        have hcolmem : col.1 ∈ tl.map Prod.fst := by
          rw [← h2]
          exact List.mem_map.mpr ⟨col, hcol, rfl⟩
        have hne : ¬ (s.1 = col.1) := by
          intro he
          rw [he] at hnotin
          exact hnotin hcolmem
        rw [List.find?_cons_of_neg _ (by simp [hne])]
      rw [hhead, htail, ih ctl h2 hnd2]

/-- C7: for every record with a set identifier, `update` submits exactly one
statement, whose SET clause covers every non-identifier field in declared
order with the record's current values and whose final bound parameter is
the identifier for the `WHERE rowid = ?` clause.  Against the engine model,
rows with other identifiers are untouched in place, and the addressed row —
whose columns are the record type's declared columns — is fully replaced by
the record's current field values. -/
theorem C7_update_full_row (c : Crudinator) (row : CrudinatorRow)
    (ex : ExecOutcome) (rid : Int) (t : Table)
    (hset : row.rowid = Value.vInt rid)
    (hrowid : ¬ "rowid" ∈ row.fields.map Prod.fst)
    (hnd : (row.fields.map Prod.fst).Nodup) :
    (update c row ex).1
      = [("UPDATE " ++ c.tableName ++ " SET "
            ++ String.intercalate "," (row.fields.map (fun f => f.1 ++ "=?"))
            ++ " WHERE rowid = ?;",
          row.fields.map (fun f => f.2) ++ [Value.vInt rid])]
    ∧ (∀ r ∈ t.rows, r.1 ≠ rid → r ∈ (update_run t row).rows)
    ∧ (∀ r ∈ (update_run t row).rows, r.1 ≠ rid → r ∈ t.rows)
    ∧ (∀ r ∈ t.rows, r.1 = rid → r.2.map Prod.fst = row.fields.map Prod.fst →
        (rid, row.fields) ∈ (update_run t row).rows) := by
  have hfilter := ignore_filter_eq row hrowid
  have hnotnull : row.rowid ≠ Value.vNull := by
    rw [hset]
    intro h
    exact Value.noConfusion h
  have hrun : update_run t row = table_update t rid row.fields := by
    unfold update_run
    rw [if_neg hnotnull, hset]
    unfold update_set_names
    rw [hfilter, zip_fst_snd]
  refine ⟨?_, ?_, ?_, ?_⟩
  · unfold update
    rw [if_neg hnotnull]
    unfold update_sql_args update_expressions
    rw [hfilter, hset]
  · intro r hr hne
    rw [hrun]
    unfold table_update
    exact List.mem_map.mpr ⟨r, hr, by simp [hne]⟩
  · intro r hr hne
    rw [hrun] at hr
    unfold table_update at hr
    obtain ⟨r0, hr0, heq⟩ := List.mem_map.mp hr
    by_cases hcase : r0.1 = rid
    · rw [if_pos hcase] at heq
      rw [← heq] at hne
      exact absurd hcase hne
    · rw [if_neg hcase] at heq
      rw [← heq]
      exact hr0
  · intro r hr hid hcols
    rw [hrun]
    unfold table_update
    refine List.mem_map.mpr ⟨r, hr, ?_⟩
    rw [if_pos hid, hid, replace_cols_eq r.2 row.fields hcols hnd]

/-- Witness for C7_update_full_row: the scenario's blue bolt update. -/
theorem C7_update_full_row_witness :
    (update widget_crud bolt_blue ExecOutcome.ok).1
      = [("UPDATE " ++ widget_crud.tableName ++ " SET "
            ++ String.intercalate "," (bolt_blue.fields.map (fun f => f.1 ++ "=?"))
            ++ " WHERE rowid = ?;",
          bolt_blue.fields.map (fun f => f.2) ++ [Value.vInt 1])]
    ∧ (1, bolt_blue.fields) ∈ (update_run widget_table2 bolt_blue).rows :=
  ⟨(C7_update_full_row widget_crud bolt_blue ExecOutcome.ok 1 widget_table2
      rfl (by decide) (by decide)).1,
   (C7_update_full_row widget_crud bolt_blue ExecOutcome.ok 1 widget_table2
      rfl (by decide) (by decide)).2.2.2
     (1, [("name", Value.vStr "bolt"), ("color", Value.vStr "red")])
     (by decide) rfl (by decide)⟩

theorem dict_get_cons_of_eq (x : String × Value) (l : List (String × Value))
    (k : String) (h : x.1 = k) : dict_get (x :: l) k = x.2 := by
  unfold dict_get
  rw [List.find?_cons_of_pos _ (by simp [h])]

theorem dict_get_cons_of_ne (x : String × Value) (l : List (String × Value))
    (k : String) (h : ¬ x.1 = k) : dict_get (x :: l) k = dict_get l k := by
  unfold dict_get
  rw [List.find?_cons_of_neg _ (by simp [h])]

theorem all_congr_list {α : Type} (l : List α) (f g : α → Bool)
    (h : ∀ a ∈ l, f a = g a) : l.all f = l.all g := by
  induction l with
  | nil => rfl
  | cons a tl ih =>
    simp only [List.all_cons, h a (List.mem_cons_self a tl),
      ih (fun b hb => h b (List.mem_cons_of_mem a hb))]

/-- Under duplicate-free keys, lookup retrieves a member binding's value. -/
theorem dict_get_of_nodup (l : List (String × Value))
    (hnd : (l.map Prod.fst).Nodup) (n : String) (v : Value)
    (hmem : (n, v) ∈ l) : dict_get l n = v := by
  induction l with
  | nil => cases hmem
  | cons x tl ih =>
    simp only [List.map_cons, List.nodup_cons] at hnd
    rcases List.mem_cons.mp hmem with he | htl
    · rw [← he]
      exact dict_get_cons_self n v tl
    · have hn : n ∈ tl.map Prod.fst := List.mem_map.mpr ⟨(n, v), htl, rfl⟩
      have hne : ¬ x.1 = n := fun he2 => hnd.1 (he2 ▸ hn)
      rw [dict_get_cons_of_ne x tl n hne]
      exact ih hnd.2 htl

/-- Rebuilding an association list from its own keys reproduces it when the
keys are duplicate-free. -/
theorem rebuild_of_nodup (l : List (String × Value))
    (hnd : (l.map Prod.fst).Nodup) :
    (l.map Prod.fst).map (fun nm => (nm, dict_get l nm)) = l := by
  induction l with
  | nil => rfl
  | cons x tl ih =>
    simp only [List.map_cons, List.nodup_cons] at hnd
    simp only [List.map_cons]
    have hhead : (x.1, dict_get (x :: tl) x.1) = x := by
      rw [dict_get_cons_of_eq x tl x.1 rfl]
    have htail : (tl.map Prod.fst).map (fun nm => (nm, dict_get (x :: tl) nm))
        = (tl.map Prod.fst).map (fun nm => (nm, dict_get tl nm)) := by
      apply List.map_congr_left
      intro nm hnm
      rw [dict_get_cons_of_ne x tl nm (fun he => hnd.1 (he ▸ hnm))]
    rw [hhead, htail, ih hnd.2]

/-- The wildcard sentinel never appears among the bound parameters of a
generated SELECT. -/
theorem sentinel_not_in_args (p : CrudinatorRow) :
    ¬ Value.vStr "any" ∈ read_args p := by
  intro hmem
  unfold read_args at hmem
  obtain ⟨f, hf, he⟩ := List.mem_map.mp hmem
  have hkeep := (List.mem_filter.mp hf).2
  simp only [List.mem_singleton, decide_not] at hkeep
  norm_num at hkeep
  exact hkeep.2 he

theorem dict_get_set_col_ne (cols : List (String × Value)) (n k : String)
    (v : Value) (h : k ≠ n) :
    dict_get (set_col cols n v) k = dict_get cols k := by
  induction cols with
  | nil => rfl
  | cons col tl ih =>
    show dict_get ((if col.1 = n then (col.1, v) else col) :: set_col tl n v) k
        = dict_get (col :: tl) k
    by_cases hck : col.1 = k
    · have hcn : ¬ col.1 = n := fun he => h (hck ▸ he)
      rw [if_neg hcn, dict_get_cons_of_eq col _ k hck, dict_get_cons_of_eq col tl k hck]
    · have hfst : (if col.1 = n then (col.1, v) else col).1 = col.1 := by
        by_cases hcn : col.1 = n
        · rw [if_pos hcn]
        · rw [if_neg hcn]
      rw [dict_get_cons_of_ne _ _ k (by rw [hfst]; exact hck),
        dict_get_cons_of_ne col tl k hck]
      exact ih

/-- Row matching is insensitive to the stored value of any column outside
the attention set. -/
theorem row_matches_set_col (attention : List String) (args : List Value)
    (cols : List (String × Value)) (n : String) (v : Value)
    (hn : ¬ n ∈ attention) :
    row_matches attention args (set_col cols n v)
      = row_matches attention args cols := by
  unfold row_matches
  apply all_congr_list
  intro q hq
  have hq1 : q.1 ∈ attention := by
    rcases q with ⟨a, b⟩
    exact (List.of_mem_zip hq).1
  have hne : q.1 ≠ n := fun he => hn (he ▸ hq1)
  rw [dict_get_set_col_ne cols n q.1 v hne]

/-- Fields valued at the sentinel contribute nothing: filtering them away
first does not change the sentinel filter's result. -/
theorem sentinel_filter_drop (l : List (String × Value)) (n : String)
    (hl : ∀ f ∈ l, f.1 = n → f.2 = Value.vStr "any") :
    (l.filter (fun f => f.1 ≠ n)).filter (fun f => f.2 ≠ Value.vStr "any")
      = l.filter (fun f => f.2 ≠ Value.vStr "any") := by
  induction l with
  | nil => rfl
  | cons f tl ih =>
    have htl := ih (fun g hg => hl g (List.mem_cons_of_mem f hg))
    rw [List.filter_cons, List.filter_cons]
    by_cases hfn : f.1 = n
    · have hany := hl f (List.mem_cons_self f tl) hfn
      rw [if_neg (by simp [hfn]), if_neg (by simp [hany])]
      exact htl
    · rw [if_pos (by simp [hfn]), List.filter_cons]
      by_cases hv : f.2 = Value.vStr "any"
      · rw [if_neg (by simp [hv]), if_neg (by simp [hv])]
        exact htl
      · rw [if_pos (by simp [hv]), if_pos (by simp [hv]), htl]

/-- C10: a prototype field holding the literal string `'any'` — whatever the
field's declared type — is indistinguishable from an unconstrained field:
the generated SELECT text and parameter list equal those of the prototype
with the field removed, the sentinel value never occurs among the bound
parameters, the field's name contributes no predicate, and row matching is
insensitive to the stored value of that column — so no read can use an
equality predicate to select rows whose stored value is the literal string
`'any'`. -/
theorem C10_wildcard_collision (c : Crudinator) (p : CrudinatorRow)
    (n : String) (lim off : Int) (ob : Option String) (dir : String)
    (cols : List (String × Value)) (v : Value)
    (hrowid : ¬ "rowid" ∈ p.fields.map Prod.fst)
    (hall : ∀ f ∈ p.fields, f.1 = n → f.2 = Value.vStr "any") :
    read_query c (some p) lim off ob dir
      = read_query c (some (drop_field p n)) lim off ob dir
    ∧ ¬ Value.vStr "any" ∈ read_args p
    ∧ ¬ n ∈ read_attention p
    ∧ row_matches (read_attention p) (read_args p) (set_col cols n v)
        = row_matches (read_attention p) (read_args p) cols := by
  have hsub : ¬ "rowid" ∈ (p.fields.filter (fun f => f.1 ≠ n)).map Prod.fst := by
    intro hmem
    obtain ⟨f, hf, he⟩ := List.mem_map.mp hmem
    exact hrowid (List.mem_map.mpr ⟨f, List.mem_of_mem_filter hf, he⟩)
  have hdrop : (drop_field p n).fields = p.fields.filter (fun f => f.1 ≠ n) := rfl
  have hatt : read_attention (drop_field p n) = read_attention p := by
    rw [read_attention_eq p hrowid, read_attention_eq (drop_field p n) (by rw [hdrop]; exact hsub),
      hdrop, sentinel_filter_drop p.fields n hall]
  have hargs : read_args (drop_field p n) = read_args p := by
    rw [read_args_eq p hrowid, read_args_eq (drop_field p n) (by rw [hdrop]; exact hsub),
      hdrop, sentinel_filter_drop p.fields n hall]
  have hnotin : ¬ n ∈ read_attention p := by
    rw [read_attention_eq p hrowid]
    intro hmem
    obtain ⟨f, hf, he⟩ := List.mem_map.mp hmem
    obtain ⟨hfmem, hkeep⟩ := List.mem_filter.mp hf
    have := hall f hfmem he
    simp [this] at hkeep
  refine ⟨?_, sentinel_not_in_args p, hnotin, ?_⟩
  · refine Prod.ext ?_ ?_
    · rw [read_query_sql_shape, read_query_sql_shape]
      show "SELECT rowid, * FROM " ++ c.tableName
          ++ String.join (prototype_parts (read_attention p)) ++ _ ++ _ ++ ";"
        = "SELECT rowid, * FROM " ++ c.tableName
          ++ String.join (prototype_parts (read_attention (drop_field p n))) ++ _ ++ _ ++ ";"
      rw [hatt]
    · rw [read_query_args_shape, read_query_args_shape]
      show read_args p = read_args (drop_field p n)
      rw [hargs]
  · exact row_matches_set_col (read_attention p) (read_args p) cols n v hnotin

/-- Witness for C10_wildcard_collision: a widget prototype whose color field
holds the sentinel. -/
theorem C10_wildcard_collision_witness :
    read_query widget_crud (some byid_prototype) 0 0 none "ASC"
      = read_query widget_crud (some (drop_field byid_prototype "color")) 0 0 none "ASC" :=
  (C10_wildcard_collision widget_crud byid_prototype "color" 0 0 none "ASC"
    [] Value.vNull (by decide) (by decide)).1

/-- C1 is false on the code: `read_generator` puts `rowid` in `ignore_keys`,
so a prototype carrying only the identifier (other fields wildcarded)
contributes no predicate at all.  After creating the red bolt (assigned
rowid 1) and the green nut (rowid 2), reading with a prototype whose rowid
is 1 and whose other fields are wildcarded returns BOTH stored rows, not
exactly the bolt's row. -/
theorem C1_counterexample :
    bolt_created.rowid = Value.vInt 1
    ∧ read_run widget_crud widget_table2 (some byid_prototype)
        = [{ rowid := Value.vInt 1, fields := bolt_red.fields },
           { rowid := Value.vInt 2, fields := nut_green.fields }]
    ∧ read_run widget_crud widget_table2 (some byid_prototype)
        ≠ [{ rowid := Value.vInt 1, fields := bolt_red.fields }] := by
  refine ⟨rfl, by decide, by decide⟩

/-- C1 (amended): reading by identifier is not supported — the prototype's
`rowid` field is excluded from the generated predicates, so a read whose
prototype has the identifier set and every other field wildcarded returns
every stored row, not exactly the created record's row.  The round trip
holds instead through field values: after `create(R)`, a read with a
prototype carrying R's (non-null, non-sentinel, duplicate-free) field
values returns exactly one record deep-equal to R including the assigned
identifier, provided no pre-existing row matches those values. -/
theorem C1_round_trip (c : Crudinator) (t : Table) (p R : CrudinatorRow)
    (hprowid : ¬ "rowid" ∈ p.fields.map Prod.fst)
    (hpall : ∀ f ∈ p.fields, f.2 = Value.vStr "any")
    (hRrowid : ¬ "rowid" ∈ R.fields.map Prod.fst)
    (hRnd : (R.fields.map Prod.fst).Nodup)
    (hnames : c.dc.fields.map Prod.fst = R.fields.map Prod.fst)
    (hvals : ∀ f ∈ R.fields, f.2 ≠ Value.vNull ∧ f.2 ≠ Value.vStr "any")
    (hnomatch : ∀ r ∈ t.rows,
      row_matches (read_attention R) (read_args R) r.2 = false) :
    read_run c t (some p)
      = t.rows.map (fun r => parse_from_dict c.dc (select_row_dict r))
    ∧ read_run c (create_run t R).1 (some R) = [(create_run t R).2] := by
  refine ⟨read_run_sentinel_all c t p hprowid hpall, ?_⟩
  have hcols : create_columns R = R.fields.map (fun f => f.1) := by
    unfold create_columns
    rw [ignore_filter_eq R hRrowid]
  have hvalsl : create_values R = R.fields.map (fun f => f.2) := by
    unfold create_values
    rw [ignore_filter_eq R hRrowid]
  have ht2 : (create_run t R).1.rows = t.rows ++ [(next_rowid t, R.fields)] := by
    show (table_insert t (create_columns R) (create_values R)).1.rows = _
    unfold table_insert
    rw [hcols, hvalsl, zip_fst_snd]
  have hfilterR : R.fields.filter (fun f => f.2 ≠ Value.vStr "any") = R.fields :=
    List.filter_eq_self.mpr (fun f hf => by simp [(hvals f hf).2])
  have hattR : read_attention R = R.fields.map (fun f => f.1) := by
    rw [read_attention_eq R hRrowid, hfilterR]
  have hargsR : read_args R = R.fields.map (fun f => f.2) := by
    rw [read_args_eq R hRrowid, hfilterR]
  have hmatch : row_matches (read_attention R) (read_args R) R.fields = true := by
    unfold row_matches
    rw [hattR, hargsR, zip_fst_snd, List.all_eq_true]
    intro q hq
    rcases q with ⟨qn, qv⟩
    rw [dict_get_of_nodup R.fields hRnd qn qv hq]
    exact sql_eq_self qv (hvals (qn, qv) hq).1
  have hsel : table_select (create_run t R).1 (read_attention R) (read_args R)
      = [(next_rowid t, R.fields)] := by
    unfold table_select
    rw [ht2, List.filter_append]
    have h1 : t.rows.filter
        (fun r => row_matches (read_attention R) (read_args R) r.2) = [] :=
      List.filter_eq_nil_iff.mpr (fun r hr => by simp [hnomatch r hr])
    have h2 : [(next_rowid t, R.fields)].filter
        (fun r => row_matches (read_attention R) (read_args R) r.2)
        = [(next_rowid t, R.fields)] := by
      rw [List.filter_cons, if_pos (by exact hmatch)]
      rfl
    rw [h1, h2]
    rfl
  have hmap : c.dc.fields.map
      (fun f => (f.1, dict_get (("rowid", Value.vInt (next_rowid t)) :: R.fields) f.1))
      = R.fields := by
    have hstep : ∀ f ∈ c.dc.fields,
        (f.1, dict_get (("rowid", Value.vInt (next_rowid t)) :: R.fields) f.1)
          = (f.1, dict_get R.fields f.1) := by
      intro f hf
      have hmem : f.1 ∈ R.fields.map Prod.fst := by
        rw [← hnames]
        exact List.mem_map.mpr ⟨f, hf, rfl⟩
      have hne : ¬ (("rowid", Value.vInt (next_rowid t)).1 = f.1) := by
        intro he
        rw [← he] at hmem
        exact hRrowid hmem
      rw [dict_get_cons_of_ne _ _ _ hne]
    rw [List.map_congr_left hstep]
    have hcomp : c.dc.fields.map (fun f => (f.1, dict_get R.fields f.1))
        = (c.dc.fields.map Prod.fst).map (fun nm => (nm, dict_get R.fields nm)) := by
      rw [List.map_map]
      rfl
    rw [hcomp, hnames, rebuild_of_nodup R.fields hRnd]
  have hhyd : parse_from_dict c.dc (select_row_dict (next_rowid t, R.fields))
      = { rowid := Value.vInt (next_rowid t), fields := R.fields } := by
    unfold parse_from_dict select_row_dict
    rw [CrudinatorRow.mk.injEq]
    exact ⟨dict_get_cons_of_eq _ _ _ rfl, hmap⟩
  show (table_select (create_run t R).1 (read_attention R) (read_args R)).map
      (fun r => parse_from_dict c.dc (select_row_dict r)) = _
  rw [hsel]
  simp only [List.map_cons, List.map_nil]
  rw [hhyd]
  rfl

/-- Witness for C1_round_trip: creating the red bolt in a table already
holding the green nut, then reading with the bolt's field values, returns
exactly the bolt record carrying its assigned identifier. -/
theorem C1_round_trip_witness :
    read_run widget_crud
        (create_run (create_run empty_table nut_green).1 bolt_red).1
        (some bolt_red)
      = [(create_run (create_run empty_table nut_green).1 bolt_red).2] :=
  (C1_round_trip widget_crud (create_run empty_table nut_green).1
    byid_prototype bolt_red (by decide) (by decide) (by decide) (by decide)
    (by decide) (by decide) (by decide)).2

end Crud
